import Mathlib

/-!
Verification development for the ProyectoSubs audio system.

The sources embedded here are the synthesis engines
(`BinauralEngine.ts`, `IsocronicEngine.ts`, the SilentEngine source,
`SupraliminalEngine.ts`), the central `AudioMixer`, and the shared
configuration helpers (`AudioEngineConfig.ts`, `types.ts`).

Modelling conventions:
 - numeric engine parameters (frequencies, pan, send-gain values, pool
   parameters) are embedded as rationals so that the state machines stay
   executable and decidable;
 - the logarithmic volume curve (`Math.pow(10, p/50 - 1)`) is embedded
   over the reals with `Real.rpow`; an engine's master-gain value is kept
   symbolically as a `GainLevel` (either a plain linear value or
   `fromPercentage p`, interpreted through `GainLevel.toReal`);
 - Web Audio `AudioParam` automation calls (`cancelScheduledValues`,
   `setValueAtTime`, `linearRampToValueAtTime`,
   `exponentialRampToValueAtTime`) are embedded as explicit operation
   lists (`AutomationOp`), one list per source-code mutation site, so
   that the cancel/snapshot/ramp discipline and every scheduled ramp
   target are visible to theorems;
 - asynchronous waits (`setTimeout`, fade timers) are collapsed: a stop
   model maps the pre-stop state directly to the state reached after the
   teardown callback has run.
-/

namespace ProyectoSubs

/-- Playback states of the synthesis engines (`types.ts`, `PlaybackState`). -/
inductive PlaybackState where
  | idle
  | playing
  | paused
  | stopping
deriving DecidableEq, Repr

/-- Error codes carried by `AudioEngineError` (`types.ts`, `ErrorCode`). -/
inductive ErrorCode where
  | INVALID_FREQUENCY
  | INVALID_VOLUME
  | CONTEXT_NOT_INITIALIZED
  | PLAYBACK_ERROR
  | BROWSER_NOT_SUPPORTED
  | RECORDING_ERROR
  | FILE_LOAD_ERROR
  | MODULATION_ERROR
deriving DecidableEq, Repr

/-- Inclusive frequency range (`types.ts`, `FrequencyRange`). -/
structure FrequencyRange where
  min : ℚ
  max : ℚ
deriving DecidableEq, Repr

namespace FREQUENCY_LIMITS

/-- Carrier limits 200-1000 Hz (`types.ts`, `FREQUENCY_LIMITS.CARRIER`). -/
def CARRIER : FrequencyRange := ⟨200, 1000⟩

/-- Binaural beat limits 0.5-100 Hz (`types.ts`, `FREQUENCY_LIMITS.BEAT`). -/
def BEAT : FrequencyRange := ⟨1/2, 100⟩

/-- Isochronic pulse limits 0.5-40 Hz (`types.ts`, `FREQUENCY_LIMITS.ISOCHRONIC`). -/
def ISOCHRONIC : FrequencyRange := ⟨1/2, 40⟩

end FREQUENCY_LIMITS

namespace BINAURAL_CONFIG

/-- Initial master gain of the binaural engine (`AudioEngineConfig.ts`). -/
def INITIAL_VOLUME : ℚ := 1/10

/-- Frequency ramp time in seconds (`AudioEngineConfig.ts`). -/
def FREQUENCY_RAMP_TIME : ℚ := 1/10

end BINAURAL_CONFIG

namespace ISOCHRONIC_CONFIG

/-- Initial master gain of the isochronic engine (`AudioEngineConfig.ts`). -/
def INITIAL_VOLUME : ℚ := 3/20

end ISOCHRONIC_CONFIG

namespace SUBLIMINAL_CONFIG

/-- Initial master gain of the silent engine (`AudioEngineConfig.ts`,
`SUBLIMINAL_CONFIG.MESSAGE_VOLUME`, written into `masterGain.gain` by
`SilentEngine.initializeNodes`). -/
def MESSAGE_VOLUME : ℚ := 1/20

end SUBLIMINAL_CONFIG

/-- Symbolic value of a master-gain `AudioParam`: either a plain linear
value written by the engine (initial volume, stop restore) or the value
`percentageToGain p` scheduled by `setVolume`.  Interpreted over the
reals by `GainLevel.toReal`. -/
inductive GainLevel where
  | linear (v : ℚ)
  | fromPercentage (p : ℚ)
deriving DecidableEq, Repr

/-- Graph-construction side effects performed by `play`
(`createOscillator`, `createStereoPanner`, `connect`, gain automation,
`start`).  The validation claims only need to observe whether any such
action happened before an error was raised. -/
inductive GraphAction where
  | createOscillator
  | createStereoPanner
  | connectNodes
  | scheduleGain
  | startOscillator
deriving DecidableEq, Repr

/-- State of `BinauralEngine` (`BinauralEngine.ts`): context/master-gain
presence, the two oscillators' frequency values when created, playback
state and the remembered current frequencies. -/
structure BinauralEngine where
  hasContext : Bool
  masterGainValue : Option GainLevel
  leftOscFreq : Option ℚ
  rightOscFreq : Option ℚ
  state : PlaybackState
  currentCarrierFreq : ℚ
  currentBeatFreq : ℚ
deriving DecidableEq, Repr

/-- Engine as constructed: no context, no nodes, idle
(`BinauralEngine.ts` field initializers). -/
def BinauralEngine.initial : BinauralEngine :=
  ⟨false, none, none, none, .idle, 0, 0⟩

/-- `BinauralEngine.init`: creates the context and the master gain at
`BINAURAL_CONFIG.INITIAL_VOLUME` on first use; later calls only resume a
suspended context and change nothing. -/
def BinauralEngine.init (e : BinauralEngine) : BinauralEngine :=
  if e.hasContext then e
  else { e with hasContext := true,
                masterGainValue := some (.linear BINAURAL_CONFIG.INITIAL_VOLUME) }

/-- `BinauralEngine.stop`, collapsed over the fade-out timer: no-op
unless playing; without a context/master gain the method returns early
with the state left at `stopping`; otherwise the teardown callback stops
and clears both oscillator chains, restores the master gain to
`BINAURAL_CONFIG.INITIAL_VOLUME` and returns to idle. -/
def BinauralEngine.stop (e : BinauralEngine) : BinauralEngine :=
  if e.state ≠ .playing then e
  else if e.hasContext = false ∨ e.masterGainValue = none then
    { e with state := .stopping }
  else
    { e with leftOscFreq := none, rightOscFreq := none,
             masterGainValue := some (.linear BINAURAL_CONFIG.INITIAL_VOLUME),
             state := .idle }

/-- `BinauralEngine.play(carrierFreq, beatFreq)`.  Validation of both
frequencies happens before `init` and before any node is touched; the
`catch` block resets the state to idle and rethrows.  On the valid path
the engine (stopped first when it was playing) builds the left chain at
`carrierFreq`, the right chain at `carrierFreq + beatFreq`, schedules
the fade-in on the master gain (net value unchanged) and starts both
oscillators.  Result: new engine state, graph actions performed, and the
error code thrown if any. -/
def BinauralEngine.play (e : BinauralEngine) (carrierFreq beatFreq : ℚ) :
    BinauralEngine × List GraphAction × Option ErrorCode :=
  if carrierFreq < FREQUENCY_LIMITS.CARRIER.min ∨
     FREQUENCY_LIMITS.CARRIER.max < carrierFreq then
    ({ e with state := .idle }, [], some .INVALID_FREQUENCY)
  else if beatFreq < FREQUENCY_LIMITS.BEAT.min ∨
          FREQUENCY_LIMITS.BEAT.max < beatFreq then
    ({ e with state := .idle }, [], some .INVALID_FREQUENCY)
  else
    let e1 := e.init
    let e2 := if e1.state = .playing then e1.stop else e1
    if e2.masterGainValue = none then
      ({ e2 with state := .idle }, [], some .CONTEXT_NOT_INITIALIZED)
    else
      ({ e2 with
          leftOscFreq := some carrierFreq,
          rightOscFreq := some (carrierFreq + beatFreq),
          currentCarrierFreq := carrierFreq,
          currentBeatFreq := beatFreq,
          state := .playing },
       [.createOscillator, .createStereoPanner, .connectNodes, .connectNodes,
        .createOscillator, .createStereoPanner, .connectNodes, .connectNodes,
        .scheduleGain, .scheduleGain, .startOscillator, .startOscillator],
       none)

/-- `BinauralEngine.setVolume(percentage)`: no-op without a master gain;
`validateVolume(percentage / 100)` throws `INVALID_VOLUME` when the
scaled value leaves [0, 1]; otherwise the percentage is clamped to
[0, 100] and the master gain ramps to `percentageToGain(clamped)`. -/
def BinauralEngine.setVolume (e : BinauralEngine) (percentage : ℚ) :
    BinauralEngine × Option ErrorCode :=
  if e.masterGainValue = none then (e, none)
  else if percentage / 100 < 0 ∨ 1 < percentage / 100 then
    (e, some .INVALID_VOLUME)
  else
    ({ e with
        masterGainValue :=
          some (.fromPercentage (max 0 (min 100 percentage))) },
     none)

/-- State of `IsocronicEngine` (`IsocronicEngine.ts`): carrier
oscillator, LFO, master gain and playback state. -/
structure IsocronicEngine where
  hasContext : Bool
  masterGainValue : Option GainLevel
  carrierOscFreq : Option ℚ
  lfoOscFreq : Option ℚ
  state : PlaybackState
deriving DecidableEq, Repr

/-- `IsocronicEngine.stop`, collapsed over the fade-out timer; the
teardown restores the master gain to `ISOCHRONIC_CONFIG.INITIAL_VOLUME`. -/
def IsocronicEngine.stop (e : IsocronicEngine) : IsocronicEngine :=
  if e.state ≠ .playing then e
  else if e.hasContext = false ∨ e.masterGainValue = none then
    { e with state := .stopping }
  else
    { e with carrierOscFreq := none, lfoOscFreq := none,
             masterGainValue := some (.linear ISOCHRONIC_CONFIG.INITIAL_VOLUME),
             state := .idle }

/-- `IsocronicEngine.setVolume(percentage)`: no-op without master gain or
context; clamps the percentage to [0, 100] and ramps the master gain to
`percentageToGain(clamped)`.  No validation is performed and no error is
ever thrown. -/
def IsocronicEngine.setVolume (e : IsocronicEngine) (percentage : ℚ) :
    IsocronicEngine × Option ErrorCode :=
  if e.masterGainValue = none ∨ e.hasContext = false then (e, none)
  else
    ({ e with
        masterGainValue :=
          some (.fromPercentage (max 0 (min 100 percentage))) },
     none)

/-- State of `SilentEngine` (silent/subliminal engine source): ultrasonic
carrier oscillator, LFO, master gain and playback state. -/
structure SilentEngine where
  hasContext : Bool
  masterGainValue : Option GainLevel
  carrierOscFreq : Option ℚ
  lfoOscFreq : Option ℚ
  state : PlaybackState
deriving DecidableEq, Repr

/-- `SilentEngine.stop`, collapsed over the fade-out delay; the teardown
restores the master gain to `SUBLIMINAL_CONFIG.MESSAGE_VOLUME`. -/
def SilentEngine.stop (e : SilentEngine) : SilentEngine :=
  if e.state ≠ .playing then e
  else if e.hasContext = false ∨ e.masterGainValue = none then
    { e with state := .stopping }
  else
    { e with carrierOscFreq := none, lfoOscFreq := none,
             masterGainValue := some (.linear SUBLIMINAL_CONFIG.MESSAGE_VOLUME),
             state := .idle }

/-- `SilentEngine.setVolume(percentage)`: no-op without master gain or
context; clamps to [0, 100] and ramps to `percentageToGain(clamped)`.
No validation is performed and no error is ever thrown. -/
def SilentEngine.setVolume (e : SilentEngine) (percentage : ℚ) :
    SilentEngine × Option ErrorCode :=
  if e.masterGainValue = none ∨ e.hasContext = false then (e, none)
  else
    ({ e with
        masterGainValue :=
          some (.fromPercentage (max 0 (min 100 percentage))) },
     none)

/-- Registry entry of a connected source (`AudioMixer`,
`ConnectedEngineInfo`): requested volume, mute and solo flags, and the
latest ramp target scheduled on the per-source send-gain node. -/
structure ConnectedEngineInfo where
  volume : ℚ
  muted : Bool
  solo : Bool
  gainTarget : ℚ
deriving DecidableEq, Repr

/-- Mixer state relevant to the per-source gain controls: context
presence and the registry of connected engines (a `Map` keyed by id,
embedded as an association list with the `Map`'s unique-key reads). -/
structure AudioMixer where
  hasContext : Bool
  engines : List (String × ConnectedEngineInfo)
deriving DecidableEq, Repr

/-- `Map.get` over the registry. -/
def lookupEngine : List (String × ConnectedEngineInfo) → String →
    Option ConnectedEngineInfo
  | [], _ => none
  | p :: rest, id => if p.1 = id then some p.2 else lookupEngine rest id

/-- `AudioMixer.muteEngine(engineId, mute)`: returns unchanged when the
id is unknown or there is no context; otherwise sets the `muted` flag
and ramps the send-gain to `0.0001` (mute) or back to the stored
`volume` (unmute). -/
def AudioMixer.muteEngine (m : AudioMixer) (id : String) (mute : Bool) :
    AudioMixer :=
  match lookupEngine m.engines id with
  | none => m
  | some _ =>
    if m.hasContext then
      { m with engines := m.engines.map fun p =>
          if p.1 = id then
            (p.1, { p.2 with muted := mute,
                             gainTarget := if mute then 1/10000 else p.2.volume })
          else p }
    else m

/-- Body of the `forEach` in `soloEngine` when `solo` is true: mute every
id other than the soloed one, unmute the soloed one. -/
def AudioMixer.soloApply (m : AudioMixer) (soloId : String)
    (ids : List String) : AudioMixer :=
  ids.foldl (fun acc id =>
    if id ≠ soloId then acc.muteEngine id true else acc.muteEngine id false) m

/-- Body of the `forEach` in `soloEngine` when `solo` is false: unmute
every id. -/
def AudioMixer.unmuteAll (m : AudioMixer) (ids : List String) : AudioMixer :=
  ids.foldl (fun acc id => acc.muteEngine id false) m

/-- `AudioMixer.soloEngine(engineId, solo)`: no-op when the id is
unknown; otherwise records the `solo` flag on that entry and then either
mutes all other sources and unmutes this one (`solo = true`) or unmutes
every source (`solo = false`), via `muteEngine` per id. -/
def AudioMixer.soloEngine (m : AudioMixer) (id : String) (solo : Bool) :
    AudioMixer :=
  match lookupEngine m.engines id with
  | none => m
  | some _ =>
    let m1 : AudioMixer :=
      { m with engines := m.engines.map fun p =>
          if p.1 = id then (p.1, { p.2 with solo := solo }) else p }
    if solo then m1.soloApply id (m.engines.map Prod.fst)
    else m1.unmuteAll (m.engines.map Prod.fst)

/-- Effect of `muteEngine(id, true)` on the registry entry of `id`:
set the flag and ramp the send-gain to the 0.0001 floor. -/
def muteUpdate (i : ConnectedEngineInfo) : ConnectedEngineInfo :=
  { i with muted := true, gainTarget := 1/10000 }

/-- Effect of `muteEngine(id, false)` on the registry entry of `id`:
clear the flag and ramp the send-gain back to the stored volume. -/
def unmuteUpdate (i : ConnectedEngineInfo) : ConnectedEngineInfo :=
  { i with muted := false, gainTarget := i.volume }

/-- Per-entry effect of the `forEach` of `soloEngine(soloId, true)`. -/
def soloEntryUpdate (soloId : String) (p : String × ConnectedEngineInfo) :
    String × ConnectedEngineInfo :=
  if p.1 = soloId then (p.1, unmuteUpdate p.2) else (p.1, muteUpdate p.2)

/-- Biquad filter types used by the node pool (`BiquadFilterNode.type`). -/
inductive FilterKind where
  | lowpass
  | highpass
  | bandpass
  | lowshelf
  | highshelf
  | peaking
  | notch
  | allpass
deriving DecidableEq, Repr

/-- Pooled gain node: identity plus its `gain.value`. -/
structure GainNodeM where
  id : ℕ
  gain : ℚ
deriving DecidableEq, Repr

/-- Pooled stereo panner node: identity plus its `pan.value`. -/
structure PannerNodeM where
  id : ℕ
  pan : ℚ
deriving DecidableEq, Repr

/-- Pooled biquad filter node: identity plus type, frequency, Q and gain. -/
structure FilterNodeM where
  id : ℕ
  ftype : FilterKind
  frequency : ℚ
  Q : ℚ
  gain : ℚ
deriving DecidableEq, Repr

/-- The three free-lists of `SupraliminalEngine.nodePool`. -/
structure NodePool where
  gains : List GainNodeM
  panners : List PannerNodeM
  filters : List FilterNodeM
deriving DecidableEq, Repr

/-- Pool state together with the allocation counter used to give fresh
nodes distinct identities. -/
structure SupraPoolState where
  pool : NodePool
  nextId : ℕ
deriving DecidableEq, Repr

/-- Empty pool, as initialized in the `SupraliminalEngine` constructor. -/
def SupraPoolState.initial : SupraPoolState := ⟨⟨[], [], []⟩, 0⟩

/-- `MAX_POOL_SIZE` from `returnNodeToPool`. -/
def MAX_POOL_SIZE : ℕ := 20

/-- `SupraliminalEngine.getOrCreateGainNode`: `Array.pop` takes the last
free node and resets `gain.value` to 1.0; with an empty free-list a new
node is created (`createGain`, default gain 1). -/
def getOrCreateGainNode (s : SupraPoolState) : GainNodeM × SupraPoolState :=
  match s.pool.gains.getLast? with
  | some n =>
    ({ n with gain := 1 },
     { s with pool := { s.pool with gains := s.pool.gains.dropLast } })
  | none =>
    ({ id := s.nextId, gain := 1 }, { s with nextId := s.nextId + 1 })

/-- `SupraliminalEngine.getOrCreatePannerNode`: pooled node reset to
`pan.value = 0`, or a fresh `createStereoPanner` (default pan 0). -/
def getOrCreatePannerNode (s : SupraPoolState) : PannerNodeM × SupraPoolState :=
  match s.pool.panners.getLast? with
  | some n =>
    ({ n with pan := 0 },
     { s with pool := { s.pool with panners := s.pool.panners.dropLast } })
  | none =>
    ({ id := s.nextId, pan := 0 }, { s with nextId := s.nextId + 1 })

/-- `SupraliminalEngine.getOrCreateFilterNode`: pooled node reset to
lowpass / 20000 Hz / Q 1 / gain 0, or a fresh `createBiquadFilter`
(defaults lowpass / 350 Hz / Q 1 / gain 0). -/
def getOrCreateFilterNode (s : SupraPoolState) : FilterNodeM × SupraPoolState :=
  match s.pool.filters.getLast? with
  | some n =>
    ({ n with ftype := .lowpass, frequency := 20000, Q := 1, gain := 0 },
     { s with pool := { s.pool with filters := s.pool.filters.dropLast } })
  | none =>
    ({ id := s.nextId, ftype := .lowpass, frequency := 350, Q := 1, gain := 0 },
     { s with nextId := s.nextId + 1 })

/-- `returnNodeToPool` for a gain node: push back only while the gain
free-list holds fewer than `MAX_POOL_SIZE` nodes, else discard. -/
def returnGainToPool (s : SupraPoolState) (n : GainNodeM) : SupraPoolState :=
  if s.pool.gains.length < MAX_POOL_SIZE then
    { s with pool := { s.pool with gains := s.pool.gains ++ [n] } }
  else s

/-- `returnNodeToPool` for a panner node. -/
def returnPannerToPool (s : SupraPoolState) (n : PannerNodeM) : SupraPoolState :=
  if s.pool.panners.length < MAX_POOL_SIZE then
    { s with pool := { s.pool with panners := s.pool.panners ++ [n] } }
  else s

/-- `returnNodeToPool` for a filter node. -/
def returnFilterToPool (s : SupraPoolState) (n : FilterNodeM) : SupraPoolState :=
  if s.pool.filters.length < MAX_POOL_SIZE then
    { s with pool := { s.pool with filters := s.pool.filters ++ [n] } }
  else s

/-- One acquisition or release against the node pool. -/
inductive PoolOp where
  | acquireGain
  | acquirePanner
  | acquireFilter
  | releaseGain (n : GainNodeM)
  | releasePanner (n : PannerNodeM)
  | releaseFilter (n : FilterNodeM)
deriving DecidableEq, Repr

/-- Effect of one pool operation on the pool state (the acquired node is
handed to the caller and drops out of the pool). -/
def stepPool (s : SupraPoolState) : PoolOp → SupraPoolState
  | .acquireGain => (getOrCreateGainNode s).2
  | .acquirePanner => (getOrCreatePannerNode s).2
  | .acquireFilter => (getOrCreateFilterNode s).2
  | .releaseGain n => returnGainToPool s n
  | .releasePanner n => returnPannerToPool s n
  | .releaseFilter n => returnFilterToPool s n

/-- Pool state after a sequence of acquisitions and releases starting
from the engine's initial empty pool. -/
def runPool (ops : List PoolOp) : SupraPoolState :=
  ops.foldl stepPool SupraPoolState.initial

/-- One `AudioParam` automation call, over a value type `α`
(`cancelScheduledValues`, `setValueAtTime`, `linearRampToValueAtTime`,
`exponentialRampToValueAtTime`). -/
inductive AutomationOp (α : Type) where
  | cancel (t : α)
  | setValue (v t : α)
  | linearRamp (v t : α)
  | expRamp (v t : α)
deriving DecidableEq, Repr

/-- Whether an automation call is `cancelScheduledValues`. -/
def AutomationOp.isCancel : AutomationOp α → Bool
  | .cancel _ => true
  | _ => false

/-- Whether any call of the list is `cancelScheduledValues`. -/
def hasCancel (ops : List (AutomationOp α)) : Bool :=
  ops.any AutomationOp.isCancel

/-- Targets of the exponential ramps scheduled by a list of calls. -/
def expRampTargets : List (AutomationOp α) → List α
  | [] => []
  | .expRamp v _ :: rest => v :: expRampTargets rest
  | _ :: rest => expRampTargets rest

/-- The list opens with `cancelScheduledValues(now)` immediately followed
by the snapshot `setValueAtTime(current, now)` before anything else. -/
def cancelsThenSnapshots (ops : List (AutomationOp α)) (current now : α) :
    Prop :=
  ∃ rest, ops = .cancel now :: .setValue current now :: rest

/-- The list opens with the snapshot `setValueAtTime(current, now)` and
contains no `cancelScheduledValues` call at all. -/
def snapshotsWithoutCancel (ops : List (AutomationOp α)) (current now : α) :
    Prop :=
  (∃ rest, ops = .setValue current now :: rest) ∧ hasCancel ops = false

/-- `AudioMixer.connectEngine` send-gain automation: the fresh gain node
starts at 0.0001 and ramps exponentially to the caller-supplied volume
(default 1.0) with no epsilon floor applied. -/
def connectEngineRamp (volume fadeInDuration now : ℚ) :
    List (AutomationOp ℚ) :=
  [.setValue (1/10000) now, .expRamp volume (now + fadeInDuration)]

/-- `AudioMixer.disconnectEngine` send-gain automation: cancel, snapshot,
exponential ramp to the 0.0001 floor. -/
def disconnectEngineRamp (current now fadeOutDuration : ℚ) :
    List (AutomationOp ℚ) :=
  [.cancel now, .setValue current now,
   .expRamp (1/10000) (now + fadeOutDuration)]

/-- `AudioMixer.setMasterVolume` automation: cancel, snapshot,
exponential ramp to `max(0.0001, clamp(value, 0, 1.5))`. -/
def setMasterVolumeRamp (current now value : ℚ) : List (AutomationOp ℚ) :=
  [.cancel now, .setValue current now,
   .expRamp (max (1/10000) (max 0 (min (3/2) value))) (now + 1/10)]

/-- `AudioMixer.setEngineVolume` automation: cancel, snapshot,
exponential ramp to `max(0.0001, clamp(value, 0, 2))`. -/
def setEngineVolumeRamp (current now value : ℚ) : List (AutomationOp ℚ) :=
  [.cancel now, .setValue current now,
   .expRamp (max (1/10000) (max 0 (min 2 value))) (now + 1/10)]

/-- `AudioMixer.muteEngine` automation: cancel, snapshot, exponential
ramp to 0.0001 when muting or to the stored volume when unmuting (the
stored volume is not floored). -/
def muteEngineRamp (current now volume : ℚ) (mute : Bool) :
    List (AutomationOp ℚ) :=
  [.cancel now, .setValue current now,
   .expRamp (if mute then 1/10000 else volume) (now + 1/20)]

/-- `SupraliminalEngine.setMasterVolume` automation: cancel, snapshot,
exponential ramp to `max(0.0001, clamp(value, 0, 1))`. -/
def supraSetMasterVolumeRamp (current now value : ℚ) :
    List (AutomationOp ℚ) :=
  [.cancel now, .setValue current now,
   .expRamp (max (1/10000) (max 0 (min 1 value))) (now + 1/10)]

/-- `SupraliminalEngine.updateLayer` volume branch: cancel, snapshot,
exponential ramp to `max(0.0001, volume)`. -/
def updateLayerVolumeRamp (current now volume : ℚ) : List (AutomationOp ℚ) :=
  [.cancel now, .setValue current now,
   .expRamp (max (1/10000) volume) (now + 1/10)]

/-- `SupraliminalEngine.updateLayer` pan branch: cancel, snapshot,
linear ramp to the new pan. -/
def updateLayerPanRamp (current now pan : ℚ) : List (AutomationOp ℚ) :=
  [.cancel now, .setValue current now, .linearRamp pan (now + 1/10)]

/-- `SupraliminalEngine.applyFadeIn`: the gain starts at the 0.0001
silence floor and ramps (exponentially by default) to 1.0 when the node
still sits at the floor, else to its current value.  No cancel call. -/
def applyFadeInRamp (gainValue : ℚ) (isExponential : Bool)
    (startTime fadeInDuration : ℚ) : List (AutomationOp ℚ) :=
  let target : ℚ := if gainValue = 1/10000 then 1 else gainValue
  if isExponential then
    [.setValue (1/10000) startTime, .expRamp target (startTime + fadeInDuration)]
  else
    [.setValue (1/10000) startTime,
     .linearRamp target (startTime + fadeInDuration)]

/-- `SupraliminalEngine.applyFadeOut`: cancel, snapshot, ramp
(exponentially by default) down to the 0.0001 floor. -/
def applyFadeOutRamp (current : ℚ) (isExponential : Bool)
    (startTime fadeOutDuration : ℚ) : List (AutomationOp ℚ) :=
  if isExponential then
    [.cancel startTime, .setValue current startTime,
     .expRamp (1/10000) (startTime + fadeOutDuration)]
  else
    [.cancel startTime, .setValue current startTime,
     .linearRamp (1/10000) (startTime + fadeOutDuration)]

/-- `BinauralEngine.updateFrequencies`, left oscillator: snapshot the
current frequency at `now`, then ramp linearly to the new carrier over
`FREQUENCY_RAMP_TIME`.  No cancel call is made. -/
def binauralUpdateFrequenciesLeftRamp (current now carrierFreq : ℚ) :
    List (AutomationOp ℚ) :=
  [.setValue current now,
   .linearRamp carrierFreq (now + BINAURAL_CONFIG.FREQUENCY_RAMP_TIME)]

/-- `BinauralEngine.updateFrequencies`, right oscillator: snapshot, then
ramp linearly to `carrierFreq + beatFreq`.  No cancel call is made. -/
def binauralUpdateFrequenciesRightRamp (current now carrierFreq beatFreq : ℚ) :
    List (AutomationOp ℚ) :=
  [.setValue current now,
   .linearRamp (carrierFreq + beatFreq)
     (now + BINAURAL_CONFIG.FREQUENCY_RAMP_TIME)]

noncomputable section

/-- `percentageToGain` (`AudioEngineConfig.ts`): clamp the percentage to
[0, 100], then `Math.pow(10, clamped / 50 - 1)`. -/
def percentageToGain (percentage : ℝ) : ℝ :=
  (10 : ℝ) ^ (max 0 (min 100 percentage) / 50 - 1)

/-- `gainToPercentage` (`AudioEngineConfig.ts`):
`50 * Math.log10(gain * 10)`. -/
def gainToPercentage (gain : ℝ) : ℝ :=
  50 * Real.logb 10 (gain * 10)

/-- Real value of a symbolic master-gain level. -/
def GainLevel.toReal : GainLevel → ℝ
  | .linear v => (v : ℝ)
  | .fromPercentage p => percentageToGain (p : ℝ)

/-- `BinauralEngine.setVolume` master-gain automation on the valid path:
snapshot the current gain at `now`, then ramp linearly to
`percentageToGain(clamp(percentage, 0, 100))` over 50 ms.  No cancel
call is made. -/
def binauralSetVolumeRamp (current now percentage : ℝ) :
    List (AutomationOp ℝ) :=
  [.setValue current now,
   .linearRamp (percentageToGain (max 0 (min 100 percentage))) (now + 1/20)]

/-- `IsocronicEngine.setVolume` master-gain automation: snapshot then
linear ramp to `percentageToGain(clamp(percentage, 0, 100))`; no cancel. -/
def isocronicSetVolumeRamp (current now percentage : ℝ) :
    List (AutomationOp ℝ) :=
  [.setValue current now,
   .linearRamp (percentageToGain (max 0 (min 100 percentage))) (now + 1/20)]

/-- `SilentEngine.setVolume` master-gain automation: snapshot then linear
ramp to `percentageToGain(clamp(percentage, 0, 100))`; no cancel. -/
def silentSetVolumeRamp (current now percentage : ℝ) :
    List (AutomationOp ℝ) :=
  [.setValue current now,
   .linearRamp (percentageToGain (max 0 (min 100 percentage))) (now + 1/20)]

end

/-- Claim C1: for every (carrier, beat) pair with carrier in [200, 1000]
and beat in [0.5, 100], calling `BinauralEngine.play(carrier, beat)` from
the `Idle` state succeeds, transitions the engine to `Playing`, sets the
left oscillator's frequency to exactly `carrier` and the right
oscillator's frequency to exactly `carrier + beat`.  (The engine
well-formedness hypothesis `hwf` records that a live context always
comes with its master gain, which `init` creates together.) -/
theorem claim_C1_play_valid_frequencies (e : BinauralEngine)
    (carrierFreq beatFreq : ℚ)
    (hwf : e.hasContext = true → e.masterGainValue ≠ none)
    (hstate : e.state = .idle)
    (hc1 : 200 ≤ carrierFreq) (hc2 : carrierFreq ≤ 1000)
    (hb1 : 1/2 ≤ beatFreq) (hb2 : beatFreq ≤ 100) :
    (e.play carrierFreq beatFreq).2.2 = none ∧
    (e.play carrierFreq beatFreq).1.state = .playing ∧
    (e.play carrierFreq beatFreq).1.leftOscFreq = some carrierFreq ∧
    (e.play carrierFreq beatFreq).1.rightOscFreq =
      some (carrierFreq + beatFreq) := by
  have hc : ¬(carrierFreq < FREQUENCY_LIMITS.CARRIER.min ∨
      FREQUENCY_LIMITS.CARRIER.max < carrierFreq) := by
    simp only [FREQUENCY_LIMITS.CARRIER]
    push_neg
    exact ⟨by exact_mod_cast hc1, by exact_mod_cast hc2⟩
  have hb : ¬(beatFreq < FREQUENCY_LIMITS.BEAT.min ∨
      FREQUENCY_LIMITS.BEAT.max < beatFreq) := by
    simp only [FREQUENCY_LIMITS.BEAT]
    push_neg
    exact ⟨by exact_mod_cast hb1, by exact_mod_cast hb2⟩
  cases hctx : e.hasContext with
  | false =>
    simp [BinauralEngine.play, BinauralEngine.init, hctx, hstate, hc, hb]
  | true =>
    have hmg : e.masterGainValue ≠ none := hwf hctx
    simp [BinauralEngine.play, BinauralEngine.init, hctx, hstate, hc, hb, hmg]

/-- Witness for claim C1 at the freshly constructed engine and the
spec's example pair (440, 10). -/
theorem claim_C1_play_valid_frequencies_witness :
    (BinauralEngine.initial.play 440 10).2.2 = none ∧
    (BinauralEngine.initial.play 440 10).1.state = .playing ∧
    (BinauralEngine.initial.play 440 10).1.leftOscFreq = some 440 ∧
    (BinauralEngine.initial.play 440 10).1.rightOscFreq = some (440 + 10) :=
  claim_C1_play_valid_frequencies BinauralEngine.initial 440 10
    (by decide) (by decide) (by norm_num) (by norm_num) (by norm_num)
    (by norm_num)

/-- Claim C2: for every (carrier, beat) pair with carrier outside
[200, 1000] or beat outside [0.5, 100], `play` fails with
`INVALID_FREQUENCY`, performs no graph action at all (the error is
raised before any node is created or mutated), and leaves the engine
exactly as it was except that the state is `Idle`. -/
theorem claim_C2_play_invalid_frequencies (e : BinauralEngine)
    (carrierFreq beatFreq : ℚ)
    (hinv : carrierFreq < 200 ∨ 1000 < carrierFreq ∨
            beatFreq < 1/2 ∨ 100 < beatFreq) :
    (e.play carrierFreq beatFreq).2.2 = some .INVALID_FREQUENCY ∧
    (e.play carrierFreq beatFreq).2.1 = [] ∧
    (e.play carrierFreq beatFreq).1 = { e with state := .idle } := by
  by_cases h1 : carrierFreq < FREQUENCY_LIMITS.CARRIER.min ∨
      FREQUENCY_LIMITS.CARRIER.max < carrierFreq
  · unfold BinauralEngine.play
    rw [if_pos h1]
    exact ⟨rfl, rfl, rfl⟩
  · have h2 : beatFreq < FREQUENCY_LIMITS.BEAT.min ∨
        FREQUENCY_LIMITS.BEAT.max < beatFreq := by
      simp only [FREQUENCY_LIMITS.CARRIER] at h1
      simp only [FREQUENCY_LIMITS.BEAT]
      push_neg at h1
      rcases hinv with h | h | h | h
      · exact absurd h (not_lt.mpr (by exact_mod_cast h1.1))
      · exact absurd h (not_lt.mpr (by exact_mod_cast h1.2))
      · exact Or.inl (by exact_mod_cast h)
      · exact Or.inr (by exact_mod_cast h)
    unfold BinauralEngine.play
    rw [if_neg h1, if_pos h2]
    exact ⟨rfl, rfl, rfl⟩

/-- Witness for claim C2: a carrier of 100 Hz is rejected with
`INVALID_FREQUENCY` and no node of the already-playing engine is
touched (only the state flag drops back to idle). -/
theorem claim_C2_play_invalid_frequencies_witness :
    ((⟨true, some (.linear (1/10)), some 440, some 450, .playing, 440,
        10⟩ : BinauralEngine).play 100 10).2.2 =
      some .INVALID_FREQUENCY ∧
    ((⟨true, some (.linear (1/10)), some 440, some 450, .playing, 440,
        10⟩ : BinauralEngine).play 100 10).2.1 = [] ∧
    ((⟨true, some (.linear (1/10)), some 440, some 450, .playing, 440,
        10⟩ : BinauralEngine).play 100 10).1 =
      { (⟨true, some (.linear (1/10)), some 440, some 450, .playing, 440,
          10⟩ : BinauralEngine) with state := .idle } :=
  claim_C2_play_invalid_frequencies _ 100 10 (Or.inl (by norm_num))

/-- Claim C10: when `stop()` on the Binaural (respectively Isochronic,
Silent) engine completes its teardown from the playing state, the master
gain is reset to the configured initial volume — 0.1, 0.15 and 0.05
respectively — and the engine returns to idle, so any master-gain value
reached via `setVolume` during playback does not survive a stop/play
cycle. -/
theorem claim_C10_stop_resets_master_gain :
    (∀ e : BinauralEngine, e.state = .playing → e.hasContext = true →
       e.masterGainValue ≠ none →
       e.stop.masterGainValue = some (.linear (1/10)) ∧
       e.stop.state = .idle) ∧
    (∀ e : IsocronicEngine, e.state = .playing → e.hasContext = true →
       e.masterGainValue ≠ none →
       e.stop.masterGainValue = some (.linear (3/20)) ∧
       e.stop.state = .idle) ∧
    (∀ e : SilentEngine, e.state = .playing → e.hasContext = true →
       e.masterGainValue ≠ none →
       e.stop.masterGainValue = some (.linear (1/20)) ∧
       e.stop.state = .idle) := by
  refine ⟨fun e h1 h2 h3 => ?_, fun e h1 h2 h3 => ?_, fun e h1 h2 h3 => ?_⟩
  · unfold BinauralEngine.stop
    rw [if_neg (by simp [h1]), if_neg (by simp [h2, h3])]
    exact ⟨rfl, rfl⟩
  · unfold IsocronicEngine.stop
    rw [if_neg (by simp [h1]), if_neg (by simp [h2, h3])]
    exact ⟨rfl, rfl⟩
  · unfold SilentEngine.stop
    rw [if_neg (by simp [h1]), if_neg (by simp [h2, h3])]
    exact ⟨rfl, rfl⟩

/-- Witness for claim C10: three playing engines whose master gain was
moved to `percentageToGain 80` by `setVolume(80)` all come back from
`stop` at their configured initial volumes. -/
theorem claim_C10_stop_resets_master_gain_witness :
    ((⟨true, some (.fromPercentage 80), some 440, some 450, .playing, 440,
        10⟩ : BinauralEngine).stop.masterGainValue = some (.linear (1/10)) ∧
     (⟨true, some (.fromPercentage 80), some 440, some 450, .playing, 440,
        10⟩ : BinauralEngine).stop.state = .idle) ∧
    ((⟨true, some (.fromPercentage 80), some 440, some 10,
        .playing⟩ : IsocronicEngine).stop.masterGainValue =
          some (.linear (3/20)) ∧
     (⟨true, some (.fromPercentage 80), some 440, some 10,
        .playing⟩ : IsocronicEngine).stop.state = .idle) ∧
    ((⟨true, some (.fromPercentage 80), some 17500, some (1/2),
        .playing⟩ : SilentEngine).stop.masterGainValue =
          some (.linear (1/20)) ∧
     (⟨true, some (.fromPercentage 80), some 17500, some (1/2),
        .playing⟩ : SilentEngine).stop.state = .idle) :=
  ⟨claim_C10_stop_resets_master_gain.1 _ rfl rfl (by decide),
   claim_C10_stop_resets_master_gain.2.1 _ rfl rfl (by decide),
   claim_C10_stop_resets_master_gain.2.2 _ rfl rfl (by decide)⟩

/-- Counterexample to claim C5: `IsocronicEngine.setVolume(150)` on a
playing engine does not fail with `INVALID_VOLUME` — it returns no error
at all — and it does change the master gain (to
`percentageToGain 100`), contradicting both halves of the claim for the
Isochronic engine (the Silent engine behaves the same way). -/
theorem claim_C5_counterexample :
    (IsocronicEngine.setVolume
      ⟨true, some (.linear (3/20)), some 440, some 10, .playing⟩ 150).2 =
        none ∧
    (IsocronicEngine.setVolume
      ⟨true, some (.linear (3/20)), some 440, some 10, .playing⟩
      150).1.masterGainValue = some (.fromPercentage 100) ∧
    (IsocronicEngine.setVolume
      ⟨true, some (.linear (3/20)), some 440, some 10, .playing⟩
      150).1.masterGainValue ≠ some (.linear (3/20)) := by
  decide

/-- Claim C5 as amended: only `BinauralEngine.setVolume` validates the
percentage — out-of-range values fail with `INVALID_VOLUME` and leave
the engine untouched — while `IsocronicEngine.setVolume` and
`SilentEngine.setVolume` never raise: they clamp the percentage into
[0, 100] and ramp the master gain to `percentageToGain` of the clamped
value. -/
theorem claim_C5_amended_volume_validation :
    (∀ (e : BinauralEngine) (percentage : ℚ), e.masterGainValue ≠ none →
       (percentage < 0 ∨ 100 < percentage) →
       (e.setVolume percentage).2 = some .INVALID_VOLUME ∧
       (e.setVolume percentage).1 = e) ∧
    (∀ (e : IsocronicEngine) (percentage : ℚ), e.masterGainValue ≠ none →
       e.hasContext = true →
       (e.setVolume percentage).2 = none ∧
       (e.setVolume percentage).1.masterGainValue =
         some (.fromPercentage (max 0 (min 100 percentage)))) ∧
    (∀ (e : SilentEngine) (percentage : ℚ), e.masterGainValue ≠ none →
       e.hasContext = true →
       (e.setVolume percentage).2 = none ∧
       (e.setVolume percentage).1.masterGainValue =
         some (.fromPercentage (max 0 (min 100 percentage)))) := by
  refine ⟨fun e p hmg hp => ?_, fun e p hmg hctx => ?_,
    fun e p hmg hctx => ?_⟩
  · have hv : p / 100 < 0 ∨ 1 < p / 100 := by
      rcases hp with h | h
      · exact Or.inl (by linarith)
      · exact Or.inr (by linarith)
    unfold BinauralEngine.setVolume
    rw [if_neg hmg, if_pos hv]
    exact ⟨rfl, rfl⟩
  · unfold IsocronicEngine.setVolume
    rw [if_neg (by simp [hmg, hctx])]
    exact ⟨rfl, rfl⟩
  · unfold SilentEngine.setVolume
    rw [if_neg (by simp [hmg, hctx])]
    exact ⟨rfl, rfl⟩

/-- Witness for the amended claim C5: `setVolume(150)` rejected by the
binaural engine with the engine untouched, silently clamped to 100 by
the isochronic and silent engines. -/
theorem claim_C5_amended_volume_validation_witness :
    ((BinauralEngine.setVolume
        ⟨true, some (.linear (1/10)), some 440, some 450, .playing, 440, 10⟩
        150).2 = some .INVALID_VOLUME ∧
     (BinauralEngine.setVolume
        ⟨true, some (.linear (1/10)), some 440, some 450, .playing, 440, 10⟩
        150).1 =
       ⟨true, some (.linear (1/10)), some 440, some 450, .playing, 440,
        10⟩) ∧
    ((IsocronicEngine.setVolume
        ⟨true, some (.linear (3/20)), some 440, some 10, .playing⟩ 150).2 =
          none ∧
     (IsocronicEngine.setVolume
        ⟨true, some (.linear (3/20)), some 440, some 10, .playing⟩
        150).1.masterGainValue = some (.fromPercentage (max 0 (min 100 150)))) ∧
    ((SilentEngine.setVolume
        ⟨true, some (.linear (1/20)), some 17500, some (1/2), .playing⟩
        150).2 = none ∧
     (SilentEngine.setVolume
        ⟨true, some (.linear (1/20)), some 17500, some (1/2), .playing⟩
        150).1.masterGainValue =
          some (.fromPercentage (max 0 (min 100 150)))) :=
  ⟨claim_C5_amended_volume_validation.1 _ 150 (by decide)
      (Or.inr (by norm_num)),
   claim_C5_amended_volume_validation.2.1 _ 150 (by decide) rfl,
   claim_C5_amended_volume_validation.2.2 _ 150 (by decide) rfl⟩

/-- All three free-lists of the pool hold at most `MAX_POOL_SIZE`
nodes. -/
def poolBounded (s : SupraPoolState) : Prop :=
  s.pool.gains.length ≤ MAX_POOL_SIZE ∧
  s.pool.panners.length ≤ MAX_POOL_SIZE ∧
  s.pool.filters.length ≤ MAX_POOL_SIZE

theorem stepPool_bounded (s : SupraPoolState) (op : PoolOp)
    (h : poolBounded s) : poolBounded (stepPool s op) := by
  obtain ⟨hg, hp, hf⟩ := h
  cases op with
  | acquireGain =>
    unfold stepPool getOrCreateGainNode
    cases hl : s.pool.gains.getLast? with
    | none => exact ⟨hg, hp, hf⟩
    | some n =>
      refine ⟨?_, hp, hf⟩
      simp only [List.length_dropLast]
      omega
  | acquirePanner =>
    unfold stepPool getOrCreatePannerNode
    cases hl : s.pool.panners.getLast? with
    | none => exact ⟨hg, hp, hf⟩
    | some n =>
      refine ⟨hg, ?_, hf⟩
      simp only [List.length_dropLast]
      omega
  | acquireFilter =>
    unfold stepPool getOrCreateFilterNode
    cases hl : s.pool.filters.getLast? with
    | none => exact ⟨hg, hp, hf⟩
    | some n =>
      refine ⟨hg, hp, ?_⟩
      simp only [List.length_dropLast]
      omega
  | releaseGain n =>
    simp only [stepPool, returnGainToPool]
    by_cases hlt : s.pool.gains.length < MAX_POOL_SIZE
    · rw [if_pos hlt]
      refine ⟨?_, hp, hf⟩
      simp only [List.length_append, List.length_singleton]
      omega
    · rw [if_neg hlt]
      exact ⟨hg, hp, hf⟩
  | releasePanner n =>
    simp only [stepPool, returnPannerToPool]
    by_cases hlt : s.pool.panners.length < MAX_POOL_SIZE
    · rw [if_pos hlt]
      refine ⟨hg, ?_, hf⟩
      simp only [List.length_append, List.length_singleton]
      omega
    · rw [if_neg hlt]
      exact ⟨hg, hp, hf⟩
  | releaseFilter n =>
    simp only [stepPool, returnFilterToPool]
    by_cases hlt : s.pool.filters.length < MAX_POOL_SIZE
    · rw [if_pos hlt]
      refine ⟨hg, hp, ?_⟩
      simp only [List.length_append, List.length_singleton]
      omega
    · rw [if_neg hlt]
      exact ⟨hg, hp, hf⟩

theorem foldl_stepPool_bounded (ops : List PoolOp) (s : SupraPoolState)
    (h : poolBounded s) : poolBounded (ops.foldl stepPool s) := by
  induction ops generalizing s with
  | nil => exact h
  | cons op rest ih => exact ih _ (stepPool_bounded s op h)

/-- Claim C8: acquiring a node returns the last released node of that
kind with its parameters reset to the kind-specific default (gain 1.0;
pan 0; filter lowpass / 20000 Hz / Q 1 / gain 0), or newly allocates one
when that kind's free-list is empty; releasing pushes the node back only
while that kind's free-list holds fewer than 20 nodes and otherwise
discards it; consequently, over every sequence of acquisitions and
releases from the initial empty pool, no kind's free-list ever exceeds
20 nodes. -/
theorem claim_C8_node_pool :
    (∀ (s : SupraPoolState) (rest : List GainNodeM) (n : GainNodeM),
       s.pool.gains = rest ++ [n] →
       (getOrCreateGainNode s).1 = { n with gain := 1 } ∧
       (getOrCreateGainNode s).2.pool.gains = rest) ∧
    (∀ s : SupraPoolState, s.pool.gains = [] →
       (getOrCreateGainNode s).1 = { id := s.nextId, gain := 1 } ∧
       (getOrCreateGainNode s).2.pool = s.pool) ∧
    (∀ (s : SupraPoolState) (rest : List PannerNodeM) (n : PannerNodeM),
       s.pool.panners = rest ++ [n] →
       (getOrCreatePannerNode s).1 = { n with pan := 0 } ∧
       (getOrCreatePannerNode s).2.pool.panners = rest) ∧
    (∀ s : SupraPoolState, s.pool.panners = [] →
       (getOrCreatePannerNode s).1 = { id := s.nextId, pan := 0 } ∧
       (getOrCreatePannerNode s).2.pool = s.pool) ∧
    (∀ (s : SupraPoolState) (rest : List FilterNodeM) (n : FilterNodeM),
       s.pool.filters = rest ++ [n] →
       (getOrCreateFilterNode s).1 =
         { n with ftype := .lowpass, frequency := 20000, Q := 1, gain := 0 } ∧
       (getOrCreateFilterNode s).2.pool.filters = rest) ∧
    (∀ s : SupraPoolState, s.pool.filters = [] →
       (getOrCreateFilterNode s).1 =
         { id := s.nextId, ftype := .lowpass, frequency := 350, Q := 1,
           gain := 0 } ∧
       (getOrCreateFilterNode s).2.pool = s.pool) ∧
    (∀ (s : SupraPoolState) (n : GainNodeM),
       (s.pool.gains.length < 20 →
         (returnGainToPool s n).pool.gains = s.pool.gains ++ [n]) ∧
       (20 ≤ s.pool.gains.length → returnGainToPool s n = s)) ∧
    (∀ (s : SupraPoolState) (n : PannerNodeM),
       (s.pool.panners.length < 20 →
         (returnPannerToPool s n).pool.panners = s.pool.panners ++ [n]) ∧
       (20 ≤ s.pool.panners.length → returnPannerToPool s n = s)) ∧
    (∀ (s : SupraPoolState) (n : FilterNodeM),
       (s.pool.filters.length < 20 →
         (returnFilterToPool s n).pool.filters = s.pool.filters ++ [n]) ∧
       (20 ≤ s.pool.filters.length → returnFilterToPool s n = s)) ∧
    (∀ ops : List PoolOp,
       (runPool ops).pool.gains.length ≤ 20 ∧
       (runPool ops).pool.panners.length ≤ 20 ∧
       (runPool ops).pool.filters.length ≤ 20) := by
  refine ⟨?_, ?_, ?_, ?_, ?_, ?_, ?_, ?_, ?_, ?_⟩
  · intro s rest n h
    unfold getOrCreateGainNode
    rw [h]
    simp [List.getLast?_concat]
  · intro s h
    unfold getOrCreateGainNode
    rw [h]
    exact ⟨rfl, rfl⟩
  · intro s rest n h
    unfold getOrCreatePannerNode
    rw [h]
    simp [List.getLast?_concat]
  · intro s h
    unfold getOrCreatePannerNode
    rw [h]
    exact ⟨rfl, rfl⟩
  · intro s rest n h
    unfold getOrCreateFilterNode
    rw [h]
    simp [List.getLast?_concat]
  · intro s h
    unfold getOrCreateFilterNode
    rw [h]
    exact ⟨rfl, rfl⟩
  · intro s n
    constructor
    · intro hlt
      simp only [returnGainToPool, MAX_POOL_SIZE]
      rw [if_pos hlt]
    · intro hge
      simp only [returnGainToPool, MAX_POOL_SIZE]
      rw [if_neg (by omega)]
  · intro s n
    constructor
    · intro hlt
      simp only [returnPannerToPool, MAX_POOL_SIZE]
      rw [if_pos hlt]
    · intro hge
      simp only [returnPannerToPool, MAX_POOL_SIZE]
      rw [if_neg (by omega)]
  · intro s n
    constructor
    · intro hlt
      simp only [returnFilterToPool, MAX_POOL_SIZE]
      rw [if_pos hlt]
    · intro hge
      simp only [returnFilterToPool, MAX_POOL_SIZE]
      rw [if_neg (by omega)]
  · intro ops
    exact foldl_stepPool_bounded ops SupraPoolState.initial
      (by exact ⟨by simp [SupraPoolState.initial], by simp [SupraPoolState.initial],
        by simp [SupraPoolState.initial]⟩)

/-- Witness for claim C8: a pool holding two released gain nodes hands
back the most recently released one with its gain reset to 1; a release
into a full free-list of 20 nodes is discarded; a sample acquisition /
release trace stays within the bound. -/
theorem claim_C8_node_pool_witness :
    (getOrCreateGainNode ⟨⟨[⟨0, 1/2⟩, ⟨1, 1/4⟩], [], []⟩, 2⟩).1 =
      (⟨1, 1⟩ : GainNodeM) ∧
    (getOrCreateGainNode ⟨⟨[⟨0, 1/2⟩, ⟨1, 1/4⟩], [], []⟩, 2⟩).2.pool.gains =
      [⟨0, 1/2⟩] ∧
    returnGainToPool
      ⟨⟨(List.range 20).map (fun i => ⟨i, 1⟩), [], []⟩, 21⟩ ⟨99, 1⟩ =
      ⟨⟨(List.range 20).map (fun i => ⟨i, 1⟩), [], []⟩, 21⟩ ∧
    (runPool [.acquireGain, .releaseGain ⟨0, 1⟩, .acquireFilter,
        .releaseFilter ⟨1, .lowpass, 350, 1, 0⟩]).pool.gains.length ≤ 20 := by
  refine ⟨?_, ?_, ?_, ?_⟩
  · exact (claim_C8_node_pool.1 ⟨⟨[⟨0, 1/2⟩, ⟨1, 1/4⟩], [], []⟩, 2⟩
      [⟨0, 1/2⟩] ⟨1, 1/4⟩ rfl).1
  · exact (claim_C8_node_pool.1 ⟨⟨[⟨0, 1/2⟩, ⟨1, 1/4⟩], [], []⟩, 2⟩
      [⟨0, 1/2⟩] ⟨1, 1/4⟩ rfl).2
  · exact (claim_C8_node_pool.2.2.2.2.2.2.1
      ⟨⟨(List.range 20).map (fun i => ⟨i, 1⟩), [], []⟩, 21⟩ ⟨99, 1⟩).2
      (by decide)
  · exact ((claim_C8_node_pool.2.2.2.2.2.2.2.2.2)
      [.acquireGain, .releaseGain ⟨0, 1⟩, .acquireFilter,
        .releaseFilter ⟨1, .lowpass, 350, 1, 0⟩]).1

theorem lookupEngine_none_map (l : List (String × ConnectedEngineInfo))
    (id : String) (f : ConnectedEngineInfo → ConnectedEngineInfo)
    (h : lookupEngine l id = none) :
    l.map (fun p => if p.1 = id then (p.1, f p.2) else p) = l := by
  induction l with
  | nil => rfl
  | cons p rest ih =>
    unfold lookupEngine at h
    by_cases hp : p.1 = id
    · rw [if_pos hp] at h
      exact absurd h (by simp)
    · rw [if_neg hp] at h
      simp only [List.map_cons, if_neg hp, ih h]

theorem muteEngine_engines (m : AudioMixer) (id : String) (b : Bool)
    (hctx : m.hasContext = true) :
    (m.muteEngine id b).engines =
      m.engines.map (fun p =>
        if p.1 = id then
          (p.1, if b then muteUpdate p.2 else unmuteUpdate p.2)
        else p) := by
  unfold AudioMixer.muteEngine
  cases hl : lookupEngine m.engines id with
  | none =>
    exact (lookupEngine_none_map m.engines id
      (fun i => if b then muteUpdate i else unmuteUpdate i) hl).symm
  | some info =>
    rw [if_pos hctx]
    refine List.map_congr_left fun p _ => ?_
    by_cases hp : p.1 = id
    · cases b <;> simp [hp, muteUpdate, unmuteUpdate]
    · simp [hp]

theorem muteEngine_hasContext (m : AudioMixer) (id : String) (b : Bool) :
    (m.muteEngine id b).hasContext = m.hasContext := by
  unfold AudioMixer.muteEngine
  cases hl : lookupEngine m.engines id with
  | none => rfl
  | some info =>
    by_cases hc : m.hasContext
    · rw [if_pos hc]
    · rw [if_neg hc]

theorem soloApply_engines (ids : List String) (m : AudioMixer)
    (soloId : String) (hctx : m.hasContext = true) :
    (m.soloApply soloId ids).engines =
      m.engines.map (fun p =>
        if p.1 ∈ ids then soloEntryUpdate soloId p else p) := by
  induction ids generalizing m with
  | nil => simp [AudioMixer.soloApply]
  | cons id0 rest ih =>
    have hstep : (m.soloApply soloId (id0 :: rest)) =
        AudioMixer.soloApply
          (if id0 ≠ soloId then m.muteEngine id0 true
           else m.muteEngine id0 false) soloId rest := rfl
    rw [hstep]
    by_cases h0 : id0 = soloId
    · subst h0
      rw [if_neg (by simp)]
      rw [ih (m.muteEngine id0 false)
        ((muteEngine_hasContext m id0 false).trans hctx)]
      rw [muteEngine_engines m id0 false hctx, List.map_map]
      refine List.map_congr_left fun p _ => ?_
      by_cases h1 : p.1 = id0
      · by_cases h2 : id0 ∈ rest <;>
          simp [Function.comp, h1, h2, soloEntryUpdate, muteUpdate,
            unmuteUpdate, List.mem_cons]
      · by_cases h2 : p.1 ∈ rest <;>
          simp [Function.comp, h1, h2, soloEntryUpdate, muteUpdate,
            unmuteUpdate, List.mem_cons]
    · rw [if_pos (by simp [h0])]
      rw [ih (m.muteEngine id0 true)
        ((muteEngine_hasContext m id0 true).trans hctx)]
      rw [muteEngine_engines m id0 true hctx, List.map_map]
      refine List.map_congr_left fun p _ => ?_
      by_cases h1 : p.1 = id0
      · by_cases h2 : id0 ∈ rest <;>
          simp [Function.comp, h0, h1, h2, soloEntryUpdate, muteUpdate,
            unmuteUpdate, List.mem_cons]
      · by_cases h3 : p.1 = soloId
        · have h1s : ¬ soloId = id0 := fun h => h1 (h3.trans h)
          by_cases h2 : soloId ∈ rest <;>
            simp [Function.comp, h3, h1s, h2, soloEntryUpdate, muteUpdate,
              unmuteUpdate, List.mem_cons]
        · by_cases h2 : p.1 ∈ rest <;>
            simp [Function.comp, h1, h2, h3, soloEntryUpdate, muteUpdate,
              unmuteUpdate, List.mem_cons]

theorem unmuteAll_engines (ids : List String) (m : AudioMixer)
    (hctx : m.hasContext = true) :
    (m.unmuteAll ids).engines =
      m.engines.map (fun p =>
        if p.1 ∈ ids then (p.1, unmuteUpdate p.2) else p) := by
  induction ids generalizing m with
  | nil => simp [AudioMixer.unmuteAll]
  | cons id0 rest ih =>
    have hstep : (m.unmuteAll (id0 :: rest)) =
        AudioMixer.unmuteAll (m.muteEngine id0 false) rest := rfl
    rw [hstep]
    rw [ih (m.muteEngine id0 false)
      ((muteEngine_hasContext m id0 false).trans hctx)]
    rw [muteEngine_engines m id0 false hctx, List.map_map]
    refine List.map_congr_left fun p _ => ?_
    by_cases h1 : p.1 = id0
    · by_cases h2 : id0 ∈ rest <;>
        simp [Function.comp, h1, h2, unmuteUpdate, List.mem_cons]
    · by_cases h2 : p.1 ∈ rest <;>
        simp [Function.comp, h1, h2, unmuteUpdate, List.mem_cons]

/-- Claim C3: for every registry of connected sources and every
connected id, `soloEngine(id, true)` mutes every other connected source
(its send-gain ramped to the 0.0001 epsilon floor) and unmutes the
soloed one (its send-gain ramped back to its stored volume);
`soloEngine(id, false)` restores every connected source to unmuted with
its send-gain at its stored volume, regardless of any individual mute
flags set before the solo. -/
theorem map_if_mem_keys {β : Type} (l : List (String × β)) (ids : List String)
    (F : String × β → String × β) (h : ∀ p ∈ l, p.1 ∈ ids) :
    l.map (fun p => if p.1 ∈ ids then F p else p) = l.map F :=
  List.map_congr_left fun p hp => if_pos (h p hp)

theorem claim_C3_solo_engine (m : AudioMixer) (id : String)
    (hctx : m.hasContext = true)
    (hmem : lookupEngine m.engines id ≠ none) :
    (∀ p ∈ (m.soloEngine id true).engines,
       (p.1 ≠ id → p.2.muted = true ∧ p.2.gainTarget = 1/10000) ∧
       (p.1 = id → p.2.muted = false ∧ p.2.gainTarget = p.2.volume)) ∧
    (∀ p ∈ (m.soloEngine id false).engines,
       p.2.muted = false ∧ p.2.gainTarget = p.2.volume) := by
  cases hl : lookupEngine m.engines id with
  | none => exact absurd hl hmem
  | some info =>
    have hm1true : (m.soloEngine id true) =
        AudioMixer.soloApply
          { m with engines := m.engines.map fun p =>
              if p.1 = id then (p.1, { p.2 with solo := true }) else p }
          id (m.engines.map Prod.fst) := by
      unfold AudioMixer.soloEngine
      rw [hl]
      exact rfl
    have hm1false : (m.soloEngine id false) =
        AudioMixer.unmuteAll
          { m with engines := m.engines.map fun p =>
              if p.1 = id then (p.1, { p.2 with solo := false }) else p }
          (m.engines.map Prod.fst) := by
      unfold AudioMixer.soloEngine
      rw [hl]
      exact rfl
    have hkeystrue : ∀ p ∈ (m.engines.map fun p =>
        if p.1 = id then (p.1, { p.2 with solo := true }) else p),
        p.1 ∈ m.engines.map Prod.fst := by
      intro p hp
      simp only [List.mem_map] at hp
      obtain ⟨r, hr, rfl⟩ := hp
      by_cases hr1 : r.1 = id
      · rw [if_pos hr1]
        show r.1 ∈ List.map Prod.fst m.engines
        exact List.mem_map_of_mem Prod.fst hr
      · rw [if_neg hr1]
        exact List.mem_map_of_mem Prod.fst hr
    have hkeysfalse : ∀ p ∈ (m.engines.map fun p =>
        if p.1 = id then (p.1, { p.2 with solo := false }) else p),
        p.1 ∈ m.engines.map Prod.fst := by
      intro p hp
      simp only [List.mem_map] at hp
      obtain ⟨r, hr, rfl⟩ := hp
      by_cases hr1 : r.1 = id
      · rw [if_pos hr1]
        show r.1 ∈ List.map Prod.fst m.engines
        exact List.mem_map_of_mem Prod.fst hr
      · rw [if_neg hr1]
        exact List.mem_map_of_mem Prod.fst hr
    have hengtrue0 : (m.soloEngine id true).engines =
        (m.engines.map fun p =>
          if p.1 = id then (p.1, { p.2 with solo := true }) else p).map
          (fun p => if p.1 ∈ m.engines.map Prod.fst then
            soloEntryUpdate id p else p) := by
      rw [hm1true]
      exact soloApply_engines (m.engines.map Prod.fst) _ id hctx
    have hengtrue : (m.soloEngine id true).engines =
        (m.engines.map fun p =>
          if p.1 = id then (p.1, { p.2 with solo := true }) else p).map
          (soloEntryUpdate id) :=
      hengtrue0.trans (map_if_mem_keys _ _ _ hkeystrue)
    have hengfalse0 : (m.soloEngine id false).engines =
        (m.engines.map fun p =>
          if p.1 = id then (p.1, { p.2 with solo := false }) else p).map
          (fun p => if p.1 ∈ m.engines.map Prod.fst then
            (p.1, unmuteUpdate p.2) else p) := by
      rw [hm1false]
      exact unmuteAll_engines (m.engines.map Prod.fst) _ hctx
    have hengfalse : (m.soloEngine id false).engines =
        (m.engines.map fun p =>
          if p.1 = id then (p.1, { p.2 with solo := false }) else p).map
          (fun p => (p.1, unmuteUpdate p.2)) :=
      hengfalse0.trans (map_if_mem_keys _ _ _ hkeysfalse)
    constructor
    · intro p hp
      rw [hengtrue, List.map_map] at hp
      simp only [List.mem_map, Function.comp] at hp
      obtain ⟨r, hr, rfl⟩ := hp
      by_cases hr1 : r.1 = id
      · rw [if_pos hr1]
        simp [soloEntryUpdate, hr1, unmuteUpdate]
      · rw [if_neg hr1]
        simp [soloEntryUpdate, hr1, muteUpdate]
    · intro p hp
      rw [hengfalse, List.map_map] at hp
      simp only [List.mem_map, Function.comp] at hp
      obtain ⟨r, hr, rfl⟩ := hp
      by_cases hr1 : r.1 = id
      · rw [if_pos hr1]
        simp [unmuteUpdate]
      · rw [if_neg hr1]
        simp [unmuteUpdate]

/-- Witness for claim C3 on a concrete two-source registry in which "b"
starts unmuted: after `soloEngine("a", true)` the entry of "b" is muted
with its send-gain at the 0.0001 floor; after `soloEngine("a", false)`
the entry of "b" is unmuted with its send-gain back at its stored
volume. -/
theorem claim_C3_solo_engine_witness :
    ((("b", (⟨3/4, true, false, 1/10000⟩ : ConnectedEngineInfo)) :
        String × ConnectedEngineInfo).2.muted = true ∧
     (("b", (⟨3/4, true, false, 1/10000⟩ : ConnectedEngineInfo)) :
        String × ConnectedEngineInfo).2.gainTarget = 1/10000) ∧
    ((("b", (⟨3/4, false, false, 3/4⟩ : ConnectedEngineInfo)) :
        String × ConnectedEngineInfo).2.muted = false ∧
     (("b", (⟨3/4, false, false, 3/4⟩ : ConnectedEngineInfo)) :
        String × ConnectedEngineInfo).2.gainTarget =
       (("b", (⟨3/4, false, false, 3/4⟩ : ConnectedEngineInfo)) :
        String × ConnectedEngineInfo).2.volume) :=
  ⟨((claim_C3_solo_engine
      ⟨true, [("a", ⟨1/2, true, false, 1/10000⟩),
              ("b", ⟨3/4, false, false, 3/4⟩)]⟩ "a" rfl
      (by simp [lookupEngine])).1
      ("b", ⟨3/4, true, false, 1/10000⟩)
      (by simp [AudioMixer.soloEngine, AudioMixer.soloApply,
        AudioMixer.muteEngine, lookupEngine])).1
      (by simp),
   (claim_C3_solo_engine
      ⟨true, [("a", ⟨1/2, true, false, 1/10000⟩),
              ("b", ⟨3/4, false, false, 3/4⟩)]⟩ "a" rfl
      (by simp [lookupEngine])).2
      ("b", ⟨3/4, false, false, 3/4⟩)
      (by simp [AudioMixer.soloEngine, AudioMixer.unmuteAll,
        AudioMixer.muteEngine, lookupEngine])⟩

theorem clamp_mem (x : ℝ) (h0 : 0 ≤ x) (h1 : x ≤ 100) :
    max 0 (min 100 x) = x := by
  rw [min_eq_right h1, max_eq_right h0]

theorem percentageToGain_mono {x y : ℝ} (h : x ≤ y) :
    percentageToGain x ≤ percentageToGain y := by
  unfold percentageToGain
  apply Real.rpow_le_rpow_of_exponent_le (by norm_num)
  have h2 : max 0 (min 100 x) ≤ max 0 (min 100 y) :=
    max_le_max le_rfl (min_le_min le_rfl h)
  linarith

theorem gainToPercentage_percentageToGain (x : ℝ) (h0 : 0 ≤ x)
    (h1 : x ≤ 100) : gainToPercentage (percentageToGain x) = x := by
  unfold gainToPercentage percentageToGain
  rw [clamp_mem x h0 h1]
  have h10 : (10:ℝ) ^ (x/50 - 1) * 10 = (10:ℝ) ^ (x/50) := by
    rw [← Real.rpow_add_one (by norm_num : (10:ℝ) ≠ 0) (x/50 - 1)]
    congr 1
    ring
  rw [h10, Real.logb_rpow (by norm_num) (by norm_num)]
  ring

theorem percentageToGain_zero : percentageToGain 0 = 1/10 := by
  unfold percentageToGain
  have h : max 0 (min 100 (0:ℝ)) / 50 - 1 = -1 := by norm_num
  rw [h, Real.rpow_neg_one]
  norm_num

theorem percentageToGain_hundred : percentageToGain 100 = 10 := by
  unfold percentageToGain
  have h : max 0 (min 100 (100:ℝ)) / 50 - 1 = 1 := by norm_num
  rw [h, Real.rpow_one]

theorem percentageToGain_bounds (p : ℝ) :
    1/10 ≤ percentageToGain p ∧ percentageToGain p ≤ 10 := by
  unfold percentageToGain
  constructor
  · have hexp : (-1:ℝ) ≤ max 0 (min 100 p) / 50 - 1 := by
      have := le_max_left (0:ℝ) (min 100 p)
      linarith
    calc (1/10:ℝ) = 10 ^ (-1:ℝ) := by
          rw [Real.rpow_neg_one]
          norm_num
      _ ≤ 10 ^ (max 0 (min 100 p) / 50 - 1) :=
          Real.rpow_le_rpow_of_exponent_le (by norm_num) hexp
  · have hexp : max 0 (min 100 p) / 50 - 1 ≤ 1 := by
      have h1 : min 100 p ≤ 100 := min_le_left 100 p
      have h2 : max 0 (min 100 p) ≤ 100 :=
        max_le (by norm_num) h1
      linarith
    calc (10:ℝ) ^ (max 0 (min 100 p) / 50 - 1)
        ≤ 10 ^ (1:ℝ) :=
          Real.rpow_le_rpow_of_exponent_le (by norm_num) hexp
      _ = 10 := Real.rpow_one 10

/-- Claim C4: `percentageToGain` is monotonically non-decreasing (in
particular on [0, 100]), and on [0, 100] `gainToPercentage` inverts it
exactly — so in particular within any tolerance. -/
theorem claim_C4_volume_curve_monotone_inverse :
    (∀ x y : ℝ, x ≤ y → percentageToGain x ≤ percentageToGain y) ∧
    (∀ x : ℝ, 0 ≤ x → x ≤ 100 →
       gainToPercentage (percentageToGain x) = x) :=
  ⟨fun _ _ h => percentageToGain_mono h,
   fun x h0 h1 => gainToPercentage_percentageToGain x h0 h1⟩

/-- Witness for claim C4: the chain 0 ≤ 50 ≤ 100 through the curve, and
the exact round trip at 50. -/
theorem claim_C4_volume_curve_monotone_inverse_witness :
    percentageToGain 0 ≤ percentageToGain 50 ∧
    percentageToGain 50 ≤ percentageToGain 100 ∧
    gainToPercentage (percentageToGain 50) = 50 :=
  ⟨claim_C4_volume_curve_monotone_inverse.1 0 50 (by norm_num),
   claim_C4_volume_curve_monotone_inverse.1 50 100 (by norm_num),
   claim_C4_volume_curve_monotone_inverse.2 50 (by norm_num) (by norm_num)⟩

/-- Claim C9: `percentageToGain(p)` equals `10 ^ (p/50 - 1)` on [0, 100]
(the clamp is the identity there), its range over all inputs is
[0.1, 10], and in particular `BinauralEngine.setVolume(0)` schedules the
master gain at `percentageToGain 0 = 0.1 ≠ 0` — not silence — while
`setVolume(100)` reaches the maximum 10, ten times unity gain. -/
theorem claim_C9_gain_floor_and_ceiling :
    (∀ p : ℝ, 0 ≤ p → p ≤ 100 →
       percentageToGain p = (10:ℝ) ^ (p/50 - 1)) ∧
    percentageToGain 0 = 1/10 ∧
    percentageToGain 100 = 10 ∧
    (∀ p : ℝ, 1/10 ≤ percentageToGain p ∧ percentageToGain p ≤ 10) ∧
    (∀ e : BinauralEngine, e.masterGainValue ≠ none →
       (e.setVolume 0).1.masterGainValue = some (.fromPercentage 0) ∧
       (GainLevel.fromPercentage 0).toReal = 1/10 ∧
       (GainLevel.fromPercentage 0).toReal ≠ 0) := by
  refine ⟨?_, percentageToGain_zero, percentageToGain_hundred,
    percentageToGain_bounds, ?_⟩
  · intro p h0 h1
    unfold percentageToGain
    rw [clamp_mem p h0 h1]
  · intro e hmg
    have htr : (GainLevel.fromPercentage 0).toReal = 1/10 := by
      show percentageToGain ((0:ℚ):ℝ) = 1/10
      rw [Rat.cast_zero]
      exact percentageToGain_zero
    refine ⟨?_, htr, by rw [htr]; norm_num⟩
    unfold BinauralEngine.setVolume
    rw [if_neg hmg, if_neg (by norm_num)]
    have hcl : max 0 (min 100 (0:ℚ)) = 0 := by norm_num
    rw [hcl]

/-- Witness for claim C9 at percentage 50 and at a concrete initialized
engine. -/
theorem claim_C9_gain_floor_and_ceiling_witness :
    percentageToGain 50 = (10:ℝ) ^ ((50:ℝ)/50 - 1) ∧
    (1/10 : ℝ) ≤ percentageToGain 50 ∧
    ((⟨true, some (.linear (1/10)), none, none, .idle, 0, 0⟩ :
        BinauralEngine).setVolume 0).1.masterGainValue =
      some (.fromPercentage 0) ∧
    (GainLevel.fromPercentage 0).toReal = 1/10 :=
  ⟨claim_C9_gain_floor_and_ceiling.1 50 (by norm_num) (by norm_num),
   (claim_C9_gain_floor_and_ceiling.2.2.2.1 50).1,
   (claim_C9_gain_floor_and_ceiling.2.2.2.2 _ (by decide)).1,
   (claim_C9_gain_floor_and_ceiling.2.2.2.2
      ⟨true, some (.linear (1/10)), none, none, .idle, 0, 0⟩
      (by decide)).2.1⟩

/-- Counterexample to claim C6: `BinauralEngine.updateFrequencies` (here
ramping the left oscillator from 440 Hz at time 0 towards 420 Hz) and
`BinauralEngine.setVolume` sequence snapshot-then-ramp only — their
automation traces contain no `cancelScheduledValues` call at all, so
these mutations do not "first cancel pending scheduled value changes"
as the claim states for every listed mutation. -/
theorem claim_C6_counterexample :
    hasCancel (binauralUpdateFrequenciesLeftRamp 440 0 420) = false ∧
    ¬ cancelsThenSnapshots (binauralUpdateFrequenciesLeftRamp 440 0 420)
        440 0 ∧
    hasCancel (binauralSetVolumeRamp (1/10) 0 50) = false := by
  refine ⟨by decide, ?_, rfl⟩
  intro h
  obtain ⟨rest, h⟩ := h
  simp [binauralUpdateFrequenciesLeftRamp] at h

/-- Claim C6 as amended: the mixer send-gain mutations
(`setEngineVolume`, `muteEngine`, `disconnectEngine`,
`setMasterVolume`), the supraliminal master-volume and `updateLayer`
volume/pan mutations, and `applyFadeOut` all follow the full
cancel-snapshot-ramp discipline; the engines' `setVolume` and
`updateFrequencies` mutations snapshot the live value at now and ramp,
but never cancel pending scheduled changes first. -/
theorem claim_C6_amended_cancel_discipline :
    (∀ current now value : ℚ,
       cancelsThenSnapshots (setEngineVolumeRamp current now value)
         current now) ∧
    (∀ (current now volume : ℚ) (mute : Bool),
       cancelsThenSnapshots (muteEngineRamp current now volume mute)
         current now) ∧
    (∀ current now fadeOutDuration : ℚ,
       cancelsThenSnapshots
         (disconnectEngineRamp current now fadeOutDuration) current now) ∧
    (∀ current now value : ℚ,
       cancelsThenSnapshots (setMasterVolumeRamp current now value)
         current now) ∧
    (∀ current now value : ℚ,
       cancelsThenSnapshots (supraSetMasterVolumeRamp current now value)
         current now) ∧
    (∀ current now volume : ℚ,
       cancelsThenSnapshots (updateLayerVolumeRamp current now volume)
         current now) ∧
    (∀ current now pan : ℚ,
       cancelsThenSnapshots (updateLayerPanRamp current now pan)
         current now) ∧
    (∀ (current : ℚ) (isExponential : Bool)
       (startTime fadeOutDuration : ℚ),
       cancelsThenSnapshots
         (applyFadeOutRamp current isExponential startTime fadeOutDuration)
         current startTime) ∧
    (∀ current now percentage : ℝ,
       snapshotsWithoutCancel (binauralSetVolumeRamp current now percentage)
         current now) ∧
    (∀ current now percentage : ℝ,
       snapshotsWithoutCancel
         (isocronicSetVolumeRamp current now percentage) current now) ∧
    (∀ current now percentage : ℝ,
       snapshotsWithoutCancel (silentSetVolumeRamp current now percentage)
         current now) ∧
    (∀ current now carrierFreq : ℚ,
       snapshotsWithoutCancel
         (binauralUpdateFrequenciesLeftRamp current now carrierFreq)
         current now) ∧
    (∀ current now carrierFreq beatFreq : ℚ,
       snapshotsWithoutCancel
         (binauralUpdateFrequenciesRightRamp current now carrierFreq
           beatFreq) current now) := by
  refine ⟨fun c n v => ⟨_, rfl⟩, fun c n v m => ⟨_, rfl⟩,
    fun c n d => ⟨_, rfl⟩, fun c n v => ⟨_, rfl⟩, fun c n v => ⟨_, rfl⟩,
    fun c n v => ⟨_, rfl⟩, fun c n p => ⟨_, rfl⟩, ?_,
    fun c n p => ⟨⟨_, rfl⟩, rfl⟩, fun c n p => ⟨⟨_, rfl⟩, rfl⟩,
    fun c n p => ⟨⟨_, rfl⟩, rfl⟩, fun c n f => ⟨⟨_, rfl⟩, rfl⟩,
    fun c n f b => ⟨⟨_, rfl⟩, rfl⟩⟩
  intro c isExponential st d
  cases isExponential with
  | false => exact ⟨_, rfl⟩
  | true => exact ⟨_, rfl⟩

/-- Claim C7, evaluated at the failing input: `connectEngine` with a
caller-supplied volume of 0 schedules an exponential send-gain ramp
whose target is literally 0 — below the 1e-4 epsilon floor that the
sibling operations apply (shown for `disconnectEngine`, whose target is
the floored 0.0001) — and unmuting a source whose stored volume is 0
(reachable via `setEngineVolume(id, 0)`) schedules the same unfloored
exponential ramp to 0. -/
theorem claim_C7_unfloored_exponential_ramp_to_zero :
    expRampTargets (connectEngineRamp 0 (1/20) 0) = [0] ∧
    expRampTargets (muteEngineRamp (1/10000) 0 0 false) = [0] ∧
    expRampTargets (disconnectEngineRamp 1 0 (1/10)) = [1/10000] ∧
    ¬ ((1/10000:ℚ) ≤ 0) := by
  refine ⟨?_, ?_, ?_, by norm_num⟩
  · simp [connectEngineRamp, expRampTargets]
  · simp [muteEngineRamp, expRampTargets]
  · simp [disconnectEngineRamp, expRampTargets]

end ProyectoSubs
